import Mathlib

/-!
Verification development for the Online_Bullying_System backend
(session management, two-factor challenges, login rate limiting,
complaint deduplication and content scanning).

Timestamps are modelled as integers (seconds).  SHA-256 digests are not
computed in the model: every function that hashes a token or code takes
the hash function as an explicit parameter, so theorems quantify over it.
-/

namespace OBS

/-- Python str.strip whitespace (ASCII whitespace set). -/
def isPySpace (c : Char) : Bool :=
  c = ' ' || c = '\t' || c = '\n' || c = '\r' || c = '\x0b' || c = '\x0c'

/-- Python str.strip: remove leading and trailing whitespace. -/
def pyStrip (s : String) : String :=
  String.mk (((s.data.dropWhile isPySpace).reverse.dropWhile isPySpace).reverse)

/- ----------------------------------------------------------------
Session manager (app/auth.py).
---------------------------------------------------------------- -/

/-- Embeds the LoginSession model (app/models.py): one stored session row. -/
structure LoginSession where
  user_id : Nat
  token_hash : String
  issued_at : Int
  expires_at : Int
  last_seen_at : Option Int
  revoked_at : Option Int
deriving DecidableEq, Repr

/-- The idle reference point of auth.py line 93: last_seen_at or issued_at. -/
def last_seen (s : LoginSession) : Int :=
  s.last_seen_at.getD s.issued_at

/-- Sets revoked_at := now on the first session whose token_hash matches,
mirroring the mutation of the row returned by filter_by(...).first(). -/
def set_revoked (th : String) (now : Int) : List LoginSession → List LoginSession
  | [] => []
  | s :: rest =>
    if s.token_hash == th then { s with revoked_at := some now } :: rest
    else s :: set_revoked th now rest

/-- Sets last_seen_at := now on the first session whose token_hash matches. -/
def set_last_seen (th : String) (now : Int) : List LoginSession → List LoginSession
  | [] => []
  | s :: rest =>
    if s.token_hash == th then { s with last_seen_at := some now } :: rest
    else s :: set_last_seen th now rest

/-- Embeds revoke_session (app/auth.py lines 69-76): hash the raw token,
look up the first matching session, and stamp revoked_at := now on it.
The stamp is applied whenever a session matches, even if it already
carries a revoked_at value. -/
def revoke_session (hash : String → String) (now : Int) (token : String)
    (store : List LoginSession) : List LoginSession :=
  if token = "" then store
  else
    match store.find? (fun s => s.token_hash == hash token) with
    | none => store
    | some _ => set_revoked (hash token) now store

/-- Embeds _get_session_from_token (app/auth.py lines 80-100).  Returns the
validated session (if any) together with the updated store.  idle_seconds
is the configured SESSION_MAX_IDLE_SECONDS; the Python guard
`if idle_seconds and ...` skips the idle check when it is 0. -/
def get_session_from_token (hash : String → String) (idle_seconds : Nat) (now : Int)
    (token : String) (store : List LoginSession) :
    Option LoginSession × List LoginSession :=
  if token = "" then (none, store)
  else
    match store.find? (fun s => s.token_hash == hash token) with
    | none => (none, store)
    | some s =>
      if s.revoked_at ≠ none then (none, store)
      else if s.expires_at ≤ now then (none, store)
      else if idle_seconds ≠ 0 ∧ (idle_seconds : Int) < now - last_seen s then
        (none, set_revoked (hash token) now store)
      else
        (some { s with last_seen_at := some now }, set_last_seen (hash token) now store)

/- ----------------------------------------------------------------
Two-factor challenge store (app/utils/two_factor.py).
---------------------------------------------------------------- -/

/-- Embeds TwoFactorChallengeModel (app/models.py): one stored challenge row.
challenge_id carries a database uniqueness constraint. -/
structure Challenge where
  challenge_id : String
  user_id : Nat
  code_hash : String
  expires_at : Int
  attempts : Nat
deriving DecidableEq, Repr

/-- Error classes raised by verify_two_factor_code (the three TwoFactorError
subclasses; invalid covers both the missing-input/not-found and the
hash-mismatch messages, which share TwoFactorInvalidError). -/
inductive TwoFactorErr
  | invalid
  | expired
  | tooManyAttempts
deriving DecidableEq, Repr

instance {ε α : Type} [DecidableEq ε] [DecidableEq α] : DecidableEq (Except ε α) := fun a b =>
  match a, b with
  | .error e, .error f =>
    if h : e = f then .isTrue (by rw [h])
    else .isFalse (by intro hh; injection hh with h2; exact h h2)
  | .error _, .ok _ => .isFalse (by intro h; exact Except.noConfusion h)
  | .ok _, .error _ => .isFalse (by intro h; exact Except.noConfusion h)
  | .ok x, .ok y =>
    if h : x = y then .isTrue (by rw [h])
    else .isFalse (by intro hh; injection hh with h2; exact h h2)

/-- Embeds cleanup_expired_challenges (two_factor.py lines 59-67): delete every
challenge with expires_at at or before now. -/
def cleanup_expired_challenges (now : Int) (store : List Challenge) : List Challenge :=
  store.filter (fun c => now < c.expires_at)

/-- Embeds invalidate_user_challenges (two_factor.py lines 81-89): delete every
challenge of the user; the guard `if not user_id` skips user id 0. -/
def invalidate_user_challenges (user_id : Nat) (store : List Challenge) : List Challenge :=
  if user_id = 0 then store
  else store.filter (fun c => c.user_id ≠ user_id)

/-- Deletes the first challenge row carrying the given challenge_id (the row
object deleted by db.session.delete; challenge_id is unique). -/
def delete_challenge (cid : String) : List Challenge → List Challenge
  | [] => []
  | c :: rest => if c.challenge_id == cid then rest else c :: delete_challenge cid rest

/-- Replaces the first challenge row carrying the given challenge_id with the
mutated row (in-place ORM mutation followed by commit). -/
def replace_challenge (cid : String) (c' : Challenge) : List Challenge → List Challenge
  | [] => []
  | c :: rest => if c.challenge_id == cid then c' :: rest else c :: replace_challenge cid c' rest

/-- Embeds create_two_factor_challenge (two_factor.py lines 92-123).  The two
now_kuala_lumpur() reads are nowCleanup (inside the cleanup sweep) and now
(expiry base); challenge_id and the code hash are the randomly generated
values, passed in explicitly.  ttl is the resolved TTL in seconds. -/
def create_two_factor_challenge (nowCleanup now : Int) (ttl : Int)
    (challenge_id code_hash : String) (user_id : Nat) (store : List Challenge) :
    List Challenge :=
  let store1 := cleanup_expired_challenges nowCleanup store
  let store2 := invalidate_user_challenges user_id store1
  store2 ++ [{ challenge_id := challenge_id, user_id := user_id, code_hash := code_hash,
               expires_at := now + max 30 ttl, attempts := 0 }]

/-- Embeds verify_two_factor_code (two_factor.py lines 127-168).  hash is
_hash_code; max_attempts the resolved TWO_FACTOR_MAX_ATTEMPTS; now1 and now2
the two successive now_kuala_lumpur() reads (the cleanup sweep's and the
expiry check's).  Returns the result together with the updated store. -/
def verify_two_factor_code (hash : String → String) (max_attempts : Nat)
    (now1 now2 : Int) (challenge_id submitted_code : String) (store : List Challenge) :
    Except TwoFactorErr Nat × List Challenge :=
  if challenge_id = "" then (.error .invalid, store)
  else if submitted_code = "" then (.error .invalid, store)
  else
    let store1 := cleanup_expired_challenges now1 store
    match store1.find? (fun c => c.challenge_id == challenge_id) with
    | none => (.error .invalid, store1)
    | some c =>
      if c.expires_at ≤ now2 then
        (.error .expired, delete_challenge challenge_id store1)
      else if max_attempts ≤ c.attempts then
        (.error .tooManyAttempts, delete_challenge challenge_id store1)
      else if c.code_hash ≠ hash (pyStrip submitted_code) then
        if max_attempts ≤ c.attempts + 1 then
          (.error .tooManyAttempts, delete_challenge challenge_id
            (replace_challenge challenge_id { c with attempts := c.attempts + 1 } store1))
        else
          (.error .invalid,
           replace_challenge challenge_id { c with attempts := c.attempts + 1 } store1)
      else
        (.ok c.user_id, delete_challenge challenge_id store1)

/- ----------------------------------------------------------------
Login rate limiter (app/routes_api.py lines 94-270).
---------------------------------------------------------------- -/

/-- Looks up a key in an association list (a Python dict with unique keys). -/
def alookup {α : Type} (k : String) : List (String × α) → Option α
  | [] => none
  | (k', v) :: rest => if k' == k then some v else alookup k rest

/-- Sets a key to a value in an association list (dict item assignment). -/
def aset {α : Type} (k : String) (v : α) : List (String × α) → List (String × α)
  | [] => [(k, v)]
  | (k', v') :: rest => if k' == k then (k', v) :: rest else (k', v') :: aset k v rest

/-- Removes a key from an association list (dict.pop(key, None)). -/
def aerase {α : Type} (k : String) : List (String × α) → List (String × α)
  | [] => []
  | (k', v') :: rest => if k' == k then aerase k rest else (k', v') :: aerase k rest

/-- Module constant _LOGIN_ATTEMPT_WINDOW_SECONDS. -/
def LOGIN_ATTEMPT_WINDOW_SECONDS : Int := 60 * 5

/-- Module constant _LOGIN_ATTEMPT_MAX_ATTEMPTS. -/
def LOGIN_ATTEMPT_MAX_ATTEMPTS : Nat := 5

/-- Module constant _LOGIN_LOCK_DURATION_SECONDS. -/
def LOGIN_LOCK_DURATION_SECONDS : Int := 60 * 15

/-- The two module tables guarded by _LOGIN_ATTEMPT_LOCK: attempt buckets
(oldest timestamp first, deque append at the right) and lockout deadlines. -/
structure RateLimitState where
  buckets : List (String × List Int)
  lockedUntil : List (String × Int)
deriving DecidableEq, Repr

/-- Purge of one bucket: `while bucket and now - bucket[0] > WINDOW: popleft()`,
preceded by setdefault(key, deque()). -/
def purge_bucket_key (now : Int) (k : String) (buckets : List (String × List Int)) :
    List (String × List Int) :=
  aset k (((alookup k buckets).getD []).dropWhile
    (fun t => LOGIN_ATTEMPT_WINDOW_SECONDS < now - t)) buckets

/-- The lockout test of _check_login_rate_limit's first loop:
`locked_until = _LOGIN_LOCKED_UNTIL.get(key); if locked_until and now < locked_until`. -/
def locked_active (now : Int) (st : RateLimitState) (k : String) : Bool :=
  match alookup k st.lockedUntil with
  | some lu => lu ≠ 0 && now < lu
  | none => false

/-- Second loop of _check_login_rate_limit: purge each key's bucket in turn and,
on the first key whose purged bucket already holds the maximum, stamp
max(existing, now + lock duration) on every key and reject. -/
def rate_limit_count_pass (now : Int) (allKeys : List String) :
    List String → RateLimitState → (Bool × Option Int) × RateLimitState
  | [], st => ((true, none), st)
  | k :: rest, st =>
    let st1 : RateLimitState := { st with buckets := purge_bucket_key now k st.buckets }
    if LOGIN_ATTEMPT_MAX_ATTEMPTS ≤ ((alookup k st1.buckets).getD []).length then
      ((false, some LOGIN_LOCK_DURATION_SECONDS),
       { st1 with lockedUntil :=
          (allKeys.foldl
            (fun m lk => aset lk (max ((alookup lk m).getD 0) (now + LOGIN_LOCK_DURATION_SECONDS)) m)
            st1.lockedUntil) })
    else rate_limit_count_pass now allKeys rest st1

/-- Third loop of _check_login_rate_limit: record the attempt on every key. -/
def record_attempts (now : Int) (keys : List String) (st : RateLimitState) : RateLimitState :=
  { st with buckets :=
      (keys.foldl (fun bs k => aset k (((alookup k bs).getD []) ++ [now]) bs) st.buckets) }

/-- Embeds _check_login_rate_limit (routes_api.py lines 233-258).  keys is the
set of involved keys (the ip-derived key plus, when an identifier was
supplied, its normalized id key), modelled as a duplicate-free list.
Returns ((allowed, retry_after), updated state). -/
def check_login_rate_limit (now : Int) (keys : List String) (st : RateLimitState) :
    (Bool × Option Int) × RateLimitState :=
  match keys.find? (locked_active now st) with
  | some k => ((false, some (max 1 (((alookup k st.lockedUntil).getD 0) - now))), st)
  | none =>
    match rate_limit_count_pass now keys keys st with
    | ((true, r), st1) => ((true, r), record_attempts now keys st1)
    | ((false, r), st1) => ((false, r), st1)

/-- Length of a key's attempt bucket after the sliding-window purge: the
number of recorded attempts still inside the window at time now. -/
def purged_len (now : Int) (bs : List (String × List Int)) (k : String) : Nat :=
  (((alookup k bs).getD []).dropWhile
    (fun t => LOGIN_ATTEMPT_WINDOW_SECONDS < now - t)).length

/-- Embeds _reset_login_rate_limit (routes_api.py lines 262-269): drop the
buckets and lockouts of every involved key. -/
def reset_login_rate_limit (keys : List String) (st : RateLimitState) : RateLimitState :=
  { buckets := keys.foldl (fun bs k => aerase k bs) st.buckets,
    lockedUntil := keys.foldl (fun m k => aerase k m) st.lockedUntil }

/-- Outcomes of the api_login handler, as far as the rate limiter can see. -/
inductive LoginOutcome
  | missingCredentials
  | rateLimited (retryAfter : Option Int)
  | invalidCredentials
  | twoFactorUnavailable
  | emailUnavailable
  | twoFactorIssued
  | success
deriving DecidableEq, Repr

/-- External collaborators of api_login, abstracted as observed outcomes:
whether the identifier resolves to a user, whether the password verifies,
whether the 2FA policy fires, and whether challenge creation and the code
email succeed. -/
structure LoginEnv where
  userFound : Bool
  passwordOk : Bool
  requiresTwoFactor : Bool
  challengeOk : Bool
  emailOk : Bool
deriving DecidableEq, Repr

/-- Embeds the control flow of api_login (routes_api.py lines 937-1013) as it
acts on the rate-limiter state.  hasIdentifier and hasPassword are the
missing-credentials guard; keys the involved rate-limit keys (identical for
the check and the reset, both derived from the same request).  The 2FA
challenge store, email dispatch and session issuance are abstracted into
env; only the rate-limiter state is carried. -/
def api_login (env : LoginEnv) (now : Int) (keys : List String)
    (hasIdentifier hasPassword : Bool) (st : RateLimitState) :
    LoginOutcome × RateLimitState :=
  if !hasIdentifier || !hasPassword then (.missingCredentials, st)
  else
    match check_login_rate_limit now keys st with
    | ((false, retry), st1) => (.rateLimited retry, st1)
    | ((true, _), st1) =>
      if !env.userFound then (.invalidCredentials, st1)
      else if !env.passwordOk then (.invalidCredentials, st1)
      else if env.requiresTwoFactor then
        if !env.challengeOk then (.twoFactorUnavailable, st1)
        else if !env.emailOk then (.emailUnavailable, st1)
        else (.twoFactorIssued, reset_login_rate_limit keys st1)
      else (.success, reset_login_rate_limit keys st1)

/- ----------------------------------------------------------------
Suspicious-content scanner (_SUSPICIOUS_CONTENT_PATTERNS and
_detect_suspicious_complaint_content, routes_api.py lines 101-330).
---------------------------------------------------------------- -/

/-- Whitespace class of the regex \s pattern (ASCII subset). -/
def isReSpace (c : Char) : Bool :=
  c = ' ' || c = '\t' || c = '\n' || c = '\r' || c = '\x0b' || c = '\x0c'

/-- Word-character class of the regex \w pattern (ASCII subset). -/
def isWordChar (c : Char) : Bool :=
  c.isAlphanum || c = '_'

/-- Case-insensitive literal match at the start of a string. -/
def startsWithCI : List Char → List Char → Bool
  | [], _ => true
  | _, [] => false
  | l :: ls, c :: cs => (c.toLower == l.toLower) && startsWithCI ls cs

/-- True when the matcher accepts at some position of the string (re.search). -/
def anySuffix (f : List Char → Bool) : List Char → Bool
  | [] => f []
  | c :: cs => f (c :: cs) || anySuffix f cs

/-- Matcher of the pattern with a script tag: a left angle bracket, optional
whitespace, then the word script, case-insensitive. -/
def scriptTagAt : List Char → Bool
  | '<' :: rest => startsWithCI "script".data (rest.dropWhile isReSpace)
  | _ => false

/-- Matcher of the javascript-URI pattern: the word javascript, optional
whitespace, then a colon, case-insensitive. -/
def jsUriAt (cs : List Char) : Bool :=
  startsWithCI "javascript".data cs &&
    match (cs.drop 10).dropWhile isReSpace with
    | ':' :: _ => true
    | _ => false

/-- Matcher of the inline event-handler pattern: the letters on, one or more
word characters, optional whitespace, then an equals sign. -/
def eventHandlerAt (cs : List Char) : Bool :=
  startsWithCI "on".data cs &&
    (let run := (cs.drop 2).takeWhile isWordChar
     run.length ≥ 1 &&
       match ((cs.drop 2).dropWhile isWordChar).dropWhile isReSpace with
       | '=' :: _ => true
       | _ => false)

/-- Matcher of the document-dot-cookie pattern (the dot escaped, so literal). -/
def docCookieAt (cs : List Char) : Bool :=
  startsWithCI "document.cookie".data cs

/-- Matcher of the window-dot-location pattern (the dot escaped, so literal). -/
def winLocationAt (cs : List Char) : Bool :=
  startsWithCI "window.location".data cs

/-- True when any of the five suspicious-content signatures matches somewhere
in the string (the inner pattern loop with break semantics). -/
def matchesSuspicious (s : String) : Bool :=
  anySuffix scriptTagAt s.data || anySuffix jsUriAt s.data ||
    anySuffix eventHandlerAt s.data || anySuffix docCookieAt s.data ||
    anySuffix winLocationAt s.data

/-- A complaint payload as seen by the complaint endpoint.  Every scanned field
is an Option: none stands for a value that is absent or not a string (the
isinstance guard skips it).  attachments is none when the payload has no
list there; each entry carries the attachment's name when it is a string. -/
structure ComplaintPayload where
  student_name : Option String := none
  incident_type : Option String := none
  incidentType : Option String := none
  description : Option String := none
  room_number : Option String := none
  roomNumber : Option String := none
  witnesses : Option String := none
  notes : Option String := none
  attachments : Option (List (Option String)) := none
deriving DecidableEq, Repr

/-- The fields_to_check tuple of _detect_suspicious_complaint_content, paired
with the payload's values, in source order. -/
def fields_to_check (p : ComplaintPayload) : List (String × Option String) :=
  [("student_name", p.student_name), ("incident_type", p.incident_type),
   ("incidentType", p.incidentType), ("description", p.description),
   ("room_number", p.room_number), ("roomNumber", p.roomNumber),
   ("witnesses", p.witnesses), ("notes", p.notes)]

/-- Embeds _detect_suspicious_complaint_content (routes_api.py lines 295-330):
collect the names of the scanned fields whose stripped value matches a
signature, then the names of matching attachment entries. -/
def detect_suspicious_complaint_content (p : ComplaintPayload) : List String :=
  let fieldHits := (fields_to_check p).filterMap (fun fv =>
    match fv.2 with
    | some v => if matchesSuspicious (pyStrip v) then some fv.1 else none
    | none => none)
  let attHits :=
    match p.attachments with
    | some atts => atts.enum.filterMap (fun iv =>
        match iv.2 with
        | some name =>
          if matchesSuspicious name then
            some ("attachments[" ++ toString iv.1 ++ "].name")
          else none
        | none => none)
    | none => []
  fieldHits ++ attHits

/- ----------------------------------------------------------------
Duplicate-complaint fingerprint cache and the complaint endpoint
(routes_api.py lines 92-229 and 761-798).
---------------------------------------------------------------- -/

/-- Module constant _COMPLAINT_DUPLICATE_WINDOW_SECONDS. -/
def COMPLAINT_DUPLICATE_WINDOW_SECONDS : Int := 60 * 30

/-- The purge loop of _check_duplicate_complaint: drop every fingerprint whose
timestamp is older than the duplicate window. -/
def purge_fingerprints (now : Int) (cache : List (String × Int)) : List (String × Int) :=
  cache.filter (fun e => now - e.2 ≤ COMPLAINT_DUPLICATE_WINDOW_SECONDS)

/-- Embeds _register_complaint_fingerprint (routes_api.py lines 224-229). -/
def register_complaint_fingerprint (now : Int) (fp : String)
    (cache : List (String × Int)) : List (String × Int) :=
  if fp = "" then cache else aset fp now cache

/-- Outcomes of the api_create_complaint handler. -/
inductive ComplaintOutcome
  | invalidContent (fields : List String)
  | duplicateSubmission
  | createFailed
  | created
deriving DecidableEq, Repr

/-- Result of one api_create_complaint call: the HTTP-level outcome, the
fingerprint cache afterwards, whether create_complaint was invoked, and
whether a complaint row was persisted. -/
structure ComplaintResult where
  outcome : ComplaintOutcome
  cache : List (String × Int)
  createAttempted : Bool
  persisted : Bool
deriving DecidableEq, Repr

/-- Embeds api_create_complaint (routes_api.py lines 761-798) together with
_check_duplicate_complaint (lines 204-220).  fingerprint abstracts
_fingerprint_complaint_payload's SHA-256 digest of the canonicalized
payload; createOk abstracts whether create_complaint persists the row or
raises.  The check's time.time() read and the registration's are modelled
as the single request timestamp now. -/
def api_create_complaint (fingerprint : ComplaintPayload → String) (createOk : Bool)
    (now : Int) (p : ComplaintPayload) (cache : List (String × Int)) : ComplaintResult :=
  let fields := detect_suspicious_complaint_content p
  if fields ≠ [] then
    { outcome := .invalidContent fields, cache := cache,
      createAttempted := false, persisted := false }
  else
    let fp := fingerprint p
    let cache1 := purge_fingerprints now cache
    if (alookup fp cache1).isSome then
      { outcome := .duplicateSubmission, cache := cache1,
        createAttempted := false, persisted := false }
    else if !createOk then
      { outcome := .createFailed, cache := cache1,
        createAttempted := true, persisted := false }
    else
      { outcome := .created, cache := register_complaint_fingerprint now fp cache1,
        createAttempted := true, persisted := true }

/- ----------------------------------------------------------------
Two-factor policy and password change (routes_api.py lines 273-283
and 865-895).
---------------------------------------------------------------- -/

/-- The user fields the 2FA policy and the password-change endpoint read. -/
structure User where
  role : String
  last_login_at : Option Int
  two_factor_verified_at : Option Int
deriving DecidableEq, Repr

/-- The role normalization inside _requires_two_factor: underscores to spaces,
strip, uppercase (applied to the role's string value; None becomes ""). -/
def normalize_role_value (role : String) : String :=
  (pyStrip (String.mk (role.data.map (fun c => if c = '_' then ' ' else c)))).map Char.toUpper

/-- Embeds _requires_two_factor (routes_api.py lines 273-283) for a present
user (the `if not user` guard returns true for a missing one). -/
def requires_two_factor (u : User) : Bool :=
  let role_value := normalize_role_value u.role
  if role_value == "ADMIN" || role_value == "SUPER ADMIN" then true
  else if u.last_login_at.isNone then true
  else if u.two_factor_verified_at.isNone then true
  else false

/-- Embeds the credential-validation tail of api_change_password
(routes_api.py lines 874-895), after the ownership checks: returns the
updated user on success and none on any rejection.  oldPasswordOk abstracts
user.check_password(old_password); strengthError abstracts
validate_password_strength.  On success the password hash is replaced and
two_factor_verified_at is cleared. -/
def api_change_password (u : User) (oldPasswordOk : Bool) (strengthError : Option String)
    (old_password new_password : String) : Option User :=
  if old_password = "" || new_password = "" then none
  else if !oldPasswordOk then none
  else if strengthError.isSome then none
  else if new_password == old_password then none
  else some { u with two_factor_verified_at := none }

/- ----------------------------------------------------------------
Witness and counterexample fixtures.
---------------------------------------------------------------- -/

/-- A concrete stand-in for the SHA-256 hex digest used in witnesses. -/
def exHash (s : String) : String := s ++ "#h"

/-- A live stored session matching exHash applied to the token "tok". -/
def exSession : LoginSession :=
  { user_id := 1, token_hash := "tok#h", issued_at := 0, expires_at := 1000,
    last_seen_at := some 0, revoked_at := none }

/-- A stored session that was already revoked at time 5. -/
def revokedSession : LoginSession :=
  { user_id := 1, token_hash := "tok#h", issued_at := 0, expires_at := 1000,
    last_seen_at := some 0, revoked_at := some 5 }

/-- A live session last seen at time 0 (idle for 500 seconds at time 500). -/
def idleSession : LoginSession :=
  { user_id := 1, token_hash := "tok#h", issued_at := 0, expires_at := 1000,
    last_seen_at := some 0, revoked_at := none }

/-- A challenge that expires at time 8: alive at a sweep at time 5, expired by
a check at time 10. -/
def lateExpireChallenge : Challenge :=
  { challenge_id := "c1", user_id := 7, code_hash := "123#h", expires_at := 8, attempts := 0 }

/-- A challenge that already expired at time 5 (before a call at time 10). -/
def expiredChallenge : Challenge :=
  { challenge_id := "c1", user_id := 7, code_hash := "123#h", expires_at := 5, attempts := 0 }

/-- A challenge whose attempt counter already reached the default max of 5. -/
def exhaustedChallenge : Challenge :=
  { challenge_id := "c1", user_id := 7, code_hash := "123#h", expires_at := 100, attempts := 5 }

/-- The involved rate-limit keys of one login request: ip key and id key. -/
def rlKeys : List String := ["ip:a", "id:alice"]

/-- A rate-limit state holding five attempts for the identifier key, all
recorded inside the window at time 100. -/
def rlState : RateLimitState :=
  { buckets := [("id:alice", [10, 20, 30, 40, 50])], lockedUntil := [] }

/-- A cache holding the digest dup registered at time 0 and the digest old
registered at time minus 2000 (expired at time 100). -/
def dupCache : List (String × Int) := [("dup", 0), ("old", -2000)]

/-- The payload of the spec's example: a script tag in the description. -/
def scriptPayload : ComplaintPayload :=
  { description := some "<script>alert(1)</script>" }

/- ----------------------------------------------------------------
Helper lemmas.
---------------------------------------------------------------- -/

theorem requires_two_factor_of_unverified (u : User)
    (h : u.two_factor_verified_at = none) : requires_two_factor u = true := by
  unfold requires_two_factor
  by_cases hA : (normalize_role_value u.role == "ADMIN" ||
      normalize_role_value u.role == "SUPER ADMIN") = true
  · simp [hA]
  · by_cases hL : u.last_login_at.isNone <;> simp [hA, hL, h]

theorem find?_set_revoked_mem (th : String) (now : Int) :
    ∀ (l : List LoginSession) (s : LoginSession),
      l.find? (fun x => x.token_hash == th) = some s →
      { s with revoked_at := some now } ∈ set_revoked th now l := by
  intro l
  induction l with
  | nil => intro s h; simp [List.find?] at h
  | cons x rest ih =>
    intro s h
    by_cases hx : x.token_hash == th
    · rw [@List.find?_cons_of_pos _ (fun y => y.token_hash == th) x rest hx] at h
      cases h
      simp [set_revoked, hx]
    · rw [@List.find?_cons_of_neg _ (fun y => y.token_hash == th) x rest (by simpa using hx)] at h
      simp only [set_revoked, if_neg hx]
      exact List.mem_cons_of_mem _ (ih s h)

/- ----------------------------------------------------------------
Claim theorems.
---------------------------------------------------------------- -/

/-- C9 (amended): revoke_session stamps revoked_at := now on the first session
whose stored hash matches the presented token's hash, unconditionally — even
when the session already carries a revocation timestamp, which it
overwrites; the call leaves the store unchanged only when the token is
empty or no session matches. -/
theorem C9_revoke_session (hash : String → String) (now : Int) (token : String)
    (store : List LoginSession) :
    (token = "" → revoke_session hash now token store = store)
    ∧ (store.find? (fun s => s.token_hash == hash token) = none →
        revoke_session hash now token store = store)
    ∧ (∀ s, token ≠ "" →
        store.find? (fun s => s.token_hash == hash token) = some s →
        revoke_session hash now token store = set_revoked (hash token) now store ∧
        { s with revoked_at := some now } ∈ revoke_session hash now token store) := by
  refine ⟨?_, ?_, ?_⟩
  · intro h
    simp [revoke_session, h]
  · intro h
    by_cases ht : token = ""
    · simp [revoke_session, ht]
    · simp [revoke_session, ht, h]
  · intro s ht h
    constructor
    · simp [revoke_session, ht, h]
    · simp only [revoke_session, if_neg ht, h]
      exact find?_set_revoked_mem (hash token) now store s h

/-- C9 witness: revoking the single live session stamps its revoked_at. -/
theorem C9_revoke_session_witness :
    revoke_session exHash 10 "tok" [exSession] =
      set_revoked (exHash "tok") 10 [exSession] ∧
    revoke_session exHash 10 "tok" [exSession] =
      [{ exSession with revoked_at := some 10 }] := by
  have h := (C9_revoke_session exHash 10 "tok" [exSession]).2.2 exSession
    (by decide) (by decide)
  exact ⟨h.1, h.1.trans (by decide)⟩

/-- C9 counterexample: the claim announces a no-op when the matching session
is already revoked, but the code overwrites the revocation timestamp, so
the stored state changes. -/
theorem C9_counterexample :
    revokedSession.revoked_at = some 5 ∧
    revoke_session exHash 10 "tok" [revokedSession] ≠ [revokedSession] := by
  decide

/-- C8: a user must complete step-up two-factor verification iff they have
never completed a full login, or their normalized role is ADMIN or SUPER ADMIN,
or two_factor_verified_at is unset; and a successful password change clears
two_factor_verified_at, after which the policy fires again. -/
theorem C8_two_factor_policy (u : User) :
    (requires_two_factor u = true ↔
      (u.last_login_at = none ∨
       normalize_role_value u.role = "ADMIN" ∨
       normalize_role_value u.role = "SUPER ADMIN" ∨
       u.two_factor_verified_at = none))
    ∧ (∀ oldOk err oldPw newPw u',
        api_change_password u oldOk err oldPw newPw = some u' →
        u'.two_factor_verified_at = none ∧ requires_two_factor u' = true) := by
  constructor
  · unfold requires_two_factor
    by_cases hA : normalize_role_value u.role = "ADMIN" <;>
      by_cases hS : normalize_role_value u.role = "SUPER ADMIN" <;>
        by_cases hL : u.last_login_at = none <;>
          by_cases hT : u.two_factor_verified_at = none <;>
            simp [hA, hS, hL, hT, Option.isNone_iff_eq_none]
  · intro oldOk err oldPw newPw u' h
    unfold api_change_password at h
    split at h
    · exact absurd h (by simp)
    · split at h
      · exact absurd h (by simp)
      · split at h
        · exact absurd h (by simp)
        · split at h
          · exact absurd h (by simp)
          · have hu : u' = { u with two_factor_verified_at := none } := by
              injection h with h'
              exact h'.symm
            subst hu
            exact ⟨rfl, requires_two_factor_of_unverified _ rfl⟩

/-- C8 witness: a student who has logged in and verified changes their
password successfully; the updated user has two_factor_verified_at unset and
the 2FA policy fires for them. -/
theorem C8_two_factor_policy_witness :
    ({ role := "student", last_login_at := some 1, two_factor_verified_at := none } :
        User).two_factor_verified_at = none ∧
    requires_two_factor
      { role := "student", last_login_at := some 1, two_factor_verified_at := none } = true :=
  (C8_two_factor_policy
      { role := "student", last_login_at := some 1, two_factor_verified_at := some 2 }).2
    true none "oldpw" "newpw"
    { role := "student", last_login_at := some 1, two_factor_verified_at := none }
    (by decide)

/-- C1 (amended): with a positive configured idle timeout and a nonempty
presented token, _get_session_from_token returns the session (its
last_seen_at refreshed) iff the token's hash matches a stored session whose
revoked_at is unset, whose expires_at is strictly in the future and whose
idle duration does not exceed the timeout; in every other case it returns
none, and in the idle-timeout case it additionally stamps revoked_at on the
matching session.  (A zero configured idle timeout disables the idle check,
and an empty token always yields none.) -/
theorem C1_session_validation (hash : String → String) (idle : Nat) (now : Int)
    (token : String) (store : List LoginSession)
    (hidle : 0 < idle) (htok : token ≠ "") :
    (store.find? (fun s => s.token_hash == hash token) = none →
      get_session_from_token hash idle now token store = (none, store))
    ∧ (∀ s, store.find? (fun s => s.token_hash == hash token) = some s →
        s.revoked_at = none → now < s.expires_at → now - last_seen s ≤ (idle : Int) →
        get_session_from_token hash idle now token store =
          (some { s with last_seen_at := some now }, set_last_seen (hash token) now store))
    ∧ (∀ s, store.find? (fun s => s.token_hash == hash token) = some s →
        (s.revoked_at ≠ none ∨ s.expires_at ≤ now) →
        get_session_from_token hash idle now token store = (none, store))
    ∧ (∀ s, store.find? (fun s => s.token_hash == hash token) = some s →
        s.revoked_at = none → now < s.expires_at → (idle : Int) < now - last_seen s →
        get_session_from_token hash idle now token store =
          (none, set_revoked (hash token) now store)) := by
  refine ⟨?_, ?_, ?_, ?_⟩
  · intro h
    simp [get_session_from_token, htok, h]
  · intro s hf hrev hexp hid
    simp only [get_session_from_token, if_neg htok, hf]
    rw [if_neg (by simp [hrev]), if_neg (not_le.mpr hexp),
      if_neg (by rintro ⟨_, h2⟩; omega)]
  · intro s hf hcase
    simp only [get_session_from_token, if_neg htok, hf]
    rcases hcase with hrev | hexp
    · rw [if_pos hrev]
    · by_cases hrev : s.revoked_at ≠ none
      · rw [if_pos hrev]
      · rw [if_neg hrev, if_pos hexp]
  · intro s hf hrev hexp hid
    simp only [get_session_from_token, if_neg htok, hf]
    rw [if_neg (by simp [hrev]), if_neg (not_le.mpr hexp),
      if_pos ⟨by omega, hid⟩]

/-- C1 witness: a live, unexpired, recently seen session is returned with its
last_seen_at refreshed. -/
theorem C1_session_validation_witness :
    get_session_from_token exHash 7200 100 "tok" [exSession] =
      (some { exSession with last_seen_at := some 100 },
       set_last_seen (exHash "tok") 100 [exSession]) :=
  (C1_session_validation exHash 7200 100 "tok" [exSession]
      (by decide) (by decide)).2.1 exSession (by decide) rfl (by decide) (by decide)

/-- C1 counterexample: with the idle timeout configured to 0 the Python guard
`if idle_seconds and ...` skips the idle check, so a session whose idle
duration (500) exceeds the configured timeout (0) is still returned, where
the claim requires none. -/
theorem C1_counterexample :
    idleSession.revoked_at = none ∧
    (500 : Int) < idleSession.expires_at ∧
    (0 : Int) < 500 - last_seen idleSession ∧
    (get_session_from_token exHash 0 500 "tok" [idleSession]).1 =
      some { idleSession with last_seen_at := some 500 } := by
  decide

/-- C2 (amended): for every stored challenge the verification call fails with
exactly one of: invalid (challenge not found — in particular when the
initial cleanup sweep already deleted it because it expired at or before
the sweep's clock read, with no attempt increment), expired (the challenge
outlived the sweep but its expires_at is at or before the later check's
clock read; deleted), tooManyAttempts (attempt count already at or above
the configured max; deleted), or invalid on a hash mismatch (attempt count
incremented and persisted; if the increment reaches the max the challenge
is deleted and the error escalates to tooManyAttempts); on a correct code
the challenge is deleted and the owning user id returned. -/
theorem C2_verify_two_factor (hash : String → String) (maxA : Nat) (now1 now2 : Int)
    (cid code : String) (store : List Challenge)
    (hcid : cid ≠ "") (hcode : code ≠ "") :
    ((cleanup_expired_challenges now1 store).find? (fun c => c.challenge_id == cid) = none →
      verify_two_factor_code hash maxA now1 now2 cid code store =
        (.error .invalid, cleanup_expired_challenges now1 store))
    ∧ (∀ c, (cleanup_expired_challenges now1 store).find? (fun c => c.challenge_id == cid) = some c →
        c.expires_at ≤ now2 →
        verify_two_factor_code hash maxA now1 now2 cid code store =
          (.error .expired, delete_challenge cid (cleanup_expired_challenges now1 store)))
    ∧ (∀ c, (cleanup_expired_challenges now1 store).find? (fun c => c.challenge_id == cid) = some c →
        now2 < c.expires_at → maxA ≤ c.attempts →
        verify_two_factor_code hash maxA now1 now2 cid code store =
          (.error .tooManyAttempts, delete_challenge cid (cleanup_expired_challenges now1 store)))
    ∧ (∀ c, (cleanup_expired_challenges now1 store).find? (fun c => c.challenge_id == cid) = some c →
        now2 < c.expires_at → c.attempts < maxA → c.code_hash ≠ hash (pyStrip code) →
        c.attempts + 1 < maxA →
        verify_two_factor_code hash maxA now1 now2 cid code store =
          (.error .invalid, replace_challenge cid { c with attempts := c.attempts + 1 }
            (cleanup_expired_challenges now1 store)))
    ∧ (∀ c, (cleanup_expired_challenges now1 store).find? (fun c => c.challenge_id == cid) = some c →
        now2 < c.expires_at → c.attempts < maxA → c.code_hash ≠ hash (pyStrip code) →
        maxA ≤ c.attempts + 1 →
        verify_two_factor_code hash maxA now1 now2 cid code store =
          (.error .tooManyAttempts, delete_challenge cid
            (replace_challenge cid { c with attempts := c.attempts + 1 }
              (cleanup_expired_challenges now1 store))))
    ∧ (∀ c, (cleanup_expired_challenges now1 store).find? (fun c => c.challenge_id == cid) = some c →
        now2 < c.expires_at → c.attempts < maxA → c.code_hash = hash (pyStrip code) →
        verify_two_factor_code hash maxA now1 now2 cid code store =
          (.ok c.user_id, delete_challenge cid (cleanup_expired_challenges now1 store))) := by
  refine ⟨?_, ?_, ?_, ?_, ?_, ?_⟩
  · intro h
    simp only [verify_two_factor_code, if_neg hcid, if_neg hcode, h]
  · intro c hf hexp
    simp only [verify_two_factor_code, if_neg hcid, if_neg hcode, hf]
    rw [if_pos hexp]
  · intro c hf hexp hatt
    simp only [verify_two_factor_code, if_neg hcid, if_neg hcode, hf]
    rw [if_neg (not_le.mpr hexp), if_pos hatt]
  · intro c hf hexp hatt hne hlt
    simp only [verify_two_factor_code, if_neg hcid, if_neg hcode, hf]
    rw [if_neg (not_le.mpr hexp), if_neg (not_le.mpr hatt), if_pos hne,
      if_neg (not_le.mpr hlt)]
  · intro c hf hexp hatt hne hge
    simp only [verify_two_factor_code, if_neg hcid, if_neg hcode, hf]
    rw [if_neg (not_le.mpr hexp), if_neg (not_le.mpr hatt), if_pos hne, if_pos hge]
  · intro c hf hexp hatt heq
    simp only [verify_two_factor_code, if_neg hcid, if_neg hcode, hf]
    rw [if_neg (not_le.mpr hexp), if_neg (not_le.mpr hatt),
      if_neg (by simpa using heq)]

/-- C2 witness: a challenge expiring between the cleanup sweep (time 5) and the
expiry check (time 10) fails with the expired error and is deleted. -/
theorem C2_verify_two_factor_witness :
    verify_two_factor_code exHash 5 5 10 "c1" "999" [lateExpireChallenge] =
      (.error .expired, delete_challenge "c1" (cleanup_expired_challenges 5 [lateExpireChallenge])) :=
  (C2_verify_two_factor exHash 5 5 10 "c1" "999" [lateExpireChallenge]
      (by decide) (by decide)).2.1 lateExpireChallenge (by decide) (by decide)

/-- C2 counterexample: the claim says an expired stored challenge fails with
the expired error, but the cleanup sweep at the start of the call deletes
it first, so the lookup misses and the error is invalid (not found) — here
even though the submitted code 123 is the correct one. -/
theorem C2_counterexample :
    expiredChallenge.expires_at ≤ (10 : Int) ∧
    exHash (pyStrip "123") = expiredChallenge.code_hash ∧
    (verify_two_factor_code exHash 5 10 10 "c1" "123" [expiredChallenge]).1 =
      .error .invalid ∧
    (verify_two_factor_code exHash 5 10 10 "c1" "123" [expiredChallenge]).1 ≠
      .error .expired := by
  decide

/-- C4: a stored, not-yet-expired challenge whose attempt count has reached the
configured max fails with tooManyAttempts on any verification call — for
every submitted code, including the correct one. -/
theorem C4_exhausted_challenge (hash : String → String) (maxA : Nat) (now1 now2 : Int)
    (cid code : String) (store : List Challenge) (c : Challenge)
    (hcid : cid ≠ "") (hcode : code ≠ "")
    (hf : (cleanup_expired_challenges now1 store).find? (fun c => c.challenge_id == cid) = some c)
    (hexp : now2 < c.expires_at) (hatt : maxA ≤ c.attempts) :
    (verify_two_factor_code hash maxA now1 now2 cid code store).1 =
      .error .tooManyAttempts ∧
    (verify_two_factor_code hash maxA now1 now2 cid code store).2 =
      delete_challenge cid (cleanup_expired_challenges now1 store) := by
  have h : verify_two_factor_code hash maxA now1 now2 cid code store =
      (.error .tooManyAttempts, delete_challenge cid (cleanup_expired_challenges now1 store)) := by
    simp only [verify_two_factor_code, if_neg hcid, if_neg hcode, hf]
    rw [if_neg (not_le.mpr hexp), if_pos hatt]
  rw [h]
  exact ⟨rfl, rfl⟩

/-- C4 witness: submitting the correct code 123 to an exhausted challenge still
fails with tooManyAttempts. -/
theorem C4_exhausted_challenge_witness :
    (verify_two_factor_code exHash 5 0 0 "c1" "123" [exhaustedChallenge]).1 =
      .error .tooManyAttempts ∧
    (verify_two_factor_code exHash 5 0 0 "c1" "123" [exhaustedChallenge]).2 =
      delete_challenge "c1" (cleanup_expired_challenges 0 [exhaustedChallenge]) :=
  C4_exhausted_challenge exHash 5 0 0 "c1" "123" [exhaustedChallenge] exhaustedChallenge
    (by decide) (by decide) (by decide) (by decide) (by decide)

theorem invalidate_filter_self (uid : Nat) (huid : uid ≠ 0) (l : List Challenge) :
    (invalidate_user_challenges uid l).filter (fun c => c.user_id == uid) = [] := by
  unfold invalidate_user_challenges
  rw [if_neg huid]
  induction l with
  | nil => rfl
  | cons c rest ih =>
    by_cases h : c.user_id = uid <;> simp [List.filter_cons, h, ih]

/-- C3: create_two_factor_challenge deletes every existing challenge of the
user (user ids are positive) before persisting the new one, so afterwards
the user's stored challenges are exactly the single new row. -/
theorem C3_single_live_challenge (nowCleanup now : Int) (ttl : Int)
    (cid code_hash : String) (uid : Nat) (store : List Challenge) (huid : 0 < uid) :
    (create_two_factor_challenge nowCleanup now ttl cid code_hash uid store).filter
      (fun c => c.user_id == uid) =
    [{ challenge_id := cid, user_id := uid, code_hash := code_hash,
       expires_at := now + max 30 ttl, attempts := 0 }] := by
  unfold create_two_factor_challenge
  rw [List.filter_append,
    invalidate_filter_self uid (Nat.pos_iff_ne_zero.mp huid)]
  simp

/-- C3 witness: creating a challenge for user 7 over a store already holding
two of their challenges leaves exactly the new row for them. -/
theorem C3_single_live_challenge_witness :
    (create_two_factor_challenge 0 0 600 "cNew" "h9" 7
        [⟨"cA", 7, "h1", 50, 0⟩, ⟨"cB", 7, "h2", 80, 2⟩, ⟨"cC", 3, "h3", 90, 0⟩]).filter
      (fun c => c.user_id == 7) =
    [{ challenge_id := "cNew", user_id := 7, code_hash := "h9",
       expires_at := 0 + max 30 600, attempts := 0 }] :=
  C3_single_live_challenge 0 0 600 "cNew" "h9" 7
    [⟨"cA", 7, "h1", 50, 0⟩, ⟨"cB", 7, "h2", 80, 2⟩, ⟨"cC", 3, "h3", 90, 0⟩] (by decide)

theorem alookup_aset_self {α : Type} (k : String) (v : α) (l : List (String × α)) :
    alookup k (aset k v l) = some v := by
  induction l with
  | nil => simp [aset, alookup]
  | cons e rest ih =>
    by_cases h : e.1 = k
    · simp [aset, alookup, h]
    · simp only [aset]
      rw [if_neg (by simpa using h)]
      simp only [alookup]
      rw [if_neg (by simpa using h)]
      exact ih

theorem alookup_none_not_mem {α : Type} (k : String) (t : α) (l : List (String × α))
    (h : alookup k l = none) : (k, t) ∉ l := by
  induction l with
  | nil => simp
  | cons e rest ih =>
    simp only [alookup] at h
    by_cases he : e.1 = k
    · rw [if_pos (by simpa using he)] at h
      exact absurd h (by simp)
    · rw [if_neg (by simpa using he)] at h
      intro hm
      rcases List.mem_cons.mp hm with hh | hh
      · exact he (by rw [← hh])
      · exact ih h hh

theorem mem_aset {α : Type} (k : String) (v t : α) (l : List (String × α))
    (h : (k, t) ∈ aset k v l) : t = v ∨ (k, t) ∈ l := by
  induction l with
  | nil =>
    simp [aset] at h
    exact Or.inl h
  | cons e rest ih =>
    simp only [aset] at h
    by_cases he : e.1 = k
    · rw [if_pos (by simpa using he)] at h
      rcases List.mem_cons.mp h with hh | hh
      · exact Or.inl (congrArg Prod.snd hh)
      · exact Or.inr (List.mem_cons_of_mem _ hh)
    · rw [if_neg (by simpa using he)] at h
      rcases List.mem_cons.mp h with hh | hh
      · exact Or.inr (by rw [hh]; exact List.mem_cons_self _ _)
      · rcases ih hh with h1 | h1
        · exact Or.inl h1
        · exact Or.inr (List.mem_cons_of_mem _ h1)

theorem alookup_purge_of_some (k : String) (t now : Int) (l : List (String × Int))
    (h : alookup k l = some t) (hin : now - t ≤ COMPLAINT_DUPLICATE_WINDOW_SECONDS) :
    alookup k (purge_fingerprints now l) = some t := by
  induction l with
  | nil => simp [alookup] at h
  | cons e rest ih =>
    simp only [alookup] at h
    by_cases he : e.1 = k
    · rw [if_pos (by simpa using he)] at h
      have ht : e.2 = t := Option.some.inj h
      simp only [purge_fingerprints, List.filter_cons]
      rw [if_pos (by simpa [ht] using hin)]
      simp [alookup, he, ht]
    · rw [if_neg (by simpa using he)] at h
      simp only [purge_fingerprints, List.filter_cons]
      by_cases hq : now - e.2 ≤ COMPLAINT_DUPLICATE_WINDOW_SECONDS
      · rw [if_pos (by simpa using hq)]
        simp only [alookup]
        rw [if_neg (by simpa using he)]
        exact ih h
      · rw [if_neg (by simpa using hq)]
        exact ih h

theorem alookup_purge_none (k : String) (now : Int) (l : List (String × Int))
    (h : ∀ t, (k, t) ∈ l → COMPLAINT_DUPLICATE_WINDOW_SECONDS < now - t) :
    alookup k (purge_fingerprints now l) = none := by
  induction l with
  | nil => rfl
  | cons e rest ih =>
    simp only [purge_fingerprints, List.filter_cons]
    by_cases hq : now - e.2 ≤ COMPLAINT_DUPLICATE_WINDOW_SECONDS
    · rw [if_pos (by simpa using hq)]
      simp only [alookup]
      by_cases he : e.1 = k
      · exfalso
        have : (k, e.2) ∈ e :: rest := by
          rw [show (k, e.2) = e from by cases e with | mk a b => simpa using he.symm]
          exact List.mem_cons_self _ _
        exact absurd hq (not_le.mpr (h e.2 this))
      · rw [if_neg (by simpa using he)]
        exact ih (fun t ht => h t (List.mem_cons_of_mem _ ht))
    · rw [if_neg (by simpa using hq)]
      exact ih (fun t ht => h t (List.mem_cons_of_mem _ ht))

theorem api_create_complaint_dup (fingerprint : ComplaintPayload → String) (ok : Bool)
    (n : Int) (q : ComplaintPayload) (cc : List (String × Int))
    (h : detect_suspicious_complaint_content q = [])
    (hd : (alookup (fingerprint q) (purge_fingerprints n cc)).isSome = true) :
    api_create_complaint fingerprint ok n q cc =
      { outcome := .duplicateSubmission, cache := purge_fingerprints n cc,
        createAttempted := false, persisted := false } := by
  simp only [api_create_complaint, h]
  rw [if_neg (by simp), if_pos hd]

theorem api_create_complaint_created (fingerprint : ComplaintPayload → String)
    (n : Int) (q : ComplaintPayload) (cc : List (String × Int))
    (h : detect_suspicious_complaint_content q = [])
    (hd : alookup (fingerprint q) (purge_fingerprints n cc) = none) :
    api_create_complaint fingerprint true n q cc =
      { outcome := .created,
        cache := register_complaint_fingerprint n (fingerprint q) (purge_fingerprints n cc),
        createAttempted := true, persisted := true } := by
  simp only [api_create_complaint, h]
  rw [if_neg (by simp), if_neg (by simp [hd])]
  simp

theorem api_create_complaint_failed (fingerprint : ComplaintPayload → String)
    (n : Int) (q : ComplaintPayload) (cc : List (String × Int))
    (h : detect_suspicious_complaint_content q = [])
    (hd : alookup (fingerprint q) (purge_fingerprints n cc) = none) :
    api_create_complaint fingerprint false n q cc =
      { outcome := .createFailed, cache := purge_fingerprints n cc,
        createAttempted := true, persisted := false } := by
  simp only [api_create_complaint, h]
  rw [if_neg (by simp), if_neg (by simp [hd])]
  simp

/-- C10: a submission rejected as a duplicate leaves the fingerprint cache
exactly lazily purged — no digest is added or refreshed, the rejected
payload's digest keeps its original registration timestamp, and every
unexpired entry survives unchanged — so the duplicate window is measured
from the last successful persistence. -/
theorem C10_duplicate_rejection_frame (fingerprint : ComplaintPayload → String)
    (createOk : Bool) (now : Int) (p : ComplaintPayload)
    (cache : List (String × Int)) (t : Int)
    (hclean : detect_suspicious_complaint_content p = [])
    (hdup : alookup (fingerprint p) (purge_fingerprints now cache) = some t) :
    api_create_complaint fingerprint createOk now p cache =
      { outcome := .duplicateSubmission, cache := purge_fingerprints now cache,
        createAttempted := false, persisted := false }
    ∧ alookup (fingerprint p)
        (api_create_complaint fingerprint createOk now p cache).cache = some t
    ∧ (∀ g u, alookup g cache = some u →
        now - u ≤ COMPLAINT_DUPLICATE_WINDOW_SECONDS →
        alookup g (api_create_complaint fingerprint createOk now p cache).cache = some u) := by
  have hr : api_create_complaint fingerprint createOk now p cache =
      { outcome := .duplicateSubmission, cache := purge_fingerprints now cache,
        createAttempted := false, persisted := false } :=
    api_create_complaint_dup fingerprint createOk now p cache hclean (by simp [hdup])
  refine ⟨hr, ?_, ?_⟩
  · rw [hr]
    exact hdup
  · intro g u hg hu
    rw [hr]
    exact alookup_purge_of_some g u now cache hg hu

/-- C10 witness: a duplicate rejection at time 100 purges only the expired
entry and keeps the rejected digest's original timestamp 0. -/
theorem C10_duplicate_rejection_frame_witness :
    api_create_complaint (fun _ => "dup") true 100 {} dupCache =
      { outcome := .duplicateSubmission, cache := purge_fingerprints 100 dupCache,
        createAttempted := false, persisted := false }
    ∧ alookup "dup" (api_create_complaint (fun _ => "dup") true 100 {} dupCache).cache =
        some 0 := by
  have h := C10_duplicate_rejection_frame (fun _ => "dup") true 100 {} dupCache 0
    (by decide) (by decide)
  exact ⟨h.1, h.2.1⟩

/-- C7: a complaint payload whose description field matches one of the
suspicious-content signatures (in particular one containing a script tag
such as the alert example) is rejected with the invalid-content error whose
field list names description, create_complaint is never invoked, and the
fingerprint cache is untouched. -/
theorem C7_suspicious_description (fingerprint : ComplaintPayload → String) (createOk : Bool)
    (now : Int) (p : ComplaintPayload) (cache : List (String × Int)) (d : String)
    (hd : p.description = some d) (hm : matchesSuspicious (pyStrip d) = true) :
    "description" ∈ detect_suspicious_complaint_content p
    ∧ api_create_complaint fingerprint createOk now p cache =
        { outcome := .invalidContent (detect_suspicious_complaint_content p),
          cache := cache, createAttempted := false, persisted := false } := by
  have hmem : "description" ∈ detect_suspicious_complaint_content p := by
    simp only [detect_suspicious_complaint_content]
    apply List.mem_append_left
    apply List.mem_filterMap.mpr
    refine ⟨("description", p.description), ?_, ?_⟩
    · simp [fields_to_check]
    · simp [hd, hm]
  have hne : detect_suspicious_complaint_content p ≠ [] := by
    intro h
    rw [h] at hmem
    exact absurd hmem (List.not_mem_nil _)
  refine ⟨hmem, ?_⟩
  simp only [api_create_complaint]
  rw [if_pos hne]

/-- C7 witness: the example payload is rejected naming description, with no
creation attempt and the cache untouched. -/
theorem C7_suspicious_description_witness :
    "description" ∈ detect_suspicious_complaint_content scriptPayload
    ∧ api_create_complaint (fun _ => "fp") true 0 scriptPayload [] =
        { outcome := .invalidContent (detect_suspicious_complaint_content scriptPayload),
          cache := [], createAttempted := false, persisted := false } :=
  C7_suspicious_description (fun _ => "fp") true 0 scriptPayload []
    "<script>alert(1)</script>" rfl (by decide)

/-- C6: two submissions sharing the same canonicalized-payload digest: the
first (fresh digest, persistence succeeds) is created and registers the
digest; a second within the 30-minute window is rejected as a duplicate; a
second after the window elapses is created again; and a failed creation
registers nothing, leaving the cache just lazily purged. -/
theorem C6_duplicate_window (fingerprint : ComplaintPayload → String) (ok2 : Bool)
    (t1 t2 : Int) (p1 p2 : ComplaintPayload) (cache : List (String × Int))
    (h1 : detect_suspicious_complaint_content p1 = [])
    (h2 : detect_suspicious_complaint_content p2 = [])
    (hfp : fingerprint p2 = fingerprint p1)
    (hnew : alookup (fingerprint p1) (purge_fingerprints t1 cache) = none)
    (hne : fingerprint p1 ≠ "") :
    (api_create_complaint fingerprint true t1 p1 cache).outcome = .created
    ∧ (t2 - t1 ≤ COMPLAINT_DUPLICATE_WINDOW_SECONDS →
        (api_create_complaint fingerprint ok2 t2 p2
          (api_create_complaint fingerprint true t1 p1 cache).cache).outcome =
          .duplicateSubmission)
    ∧ (COMPLAINT_DUPLICATE_WINDOW_SECONDS < t2 - t1 →
        (api_create_complaint fingerprint true t2 p2
          (api_create_complaint fingerprint true t1 p1 cache).cache).outcome = .created)
    ∧ (∀ p c n, detect_suspicious_complaint_content p = [] →
        alookup (fingerprint p) (purge_fingerprints n c) = none →
        api_create_complaint fingerprint false n p c =
          { outcome := .createFailed, cache := purge_fingerprints n c,
            createAttempted := true, persisted := false }) := by
  have hr1 : api_create_complaint fingerprint true t1 p1 cache =
      { outcome := .created,
        cache := register_complaint_fingerprint t1 (fingerprint p1) (purge_fingerprints t1 cache),
        createAttempted := true, persisted := true } :=
    api_create_complaint_created fingerprint t1 p1 cache h1 hnew
  have hcache1 : (api_create_complaint fingerprint true t1 p1 cache).cache =
      aset (fingerprint p1) t1 (purge_fingerprints t1 cache) := by
    rw [hr1]
    simp [register_complaint_fingerprint, hne]
  refine ⟨by rw [hr1], ?_, ?_, ?_⟩
  · intro hw
    have hl : alookup (fingerprint p2)
        (purge_fingerprints t2 (api_create_complaint fingerprint true t1 p1 cache).cache) =
        some t1 := by
      rw [hcache1, hfp]
      exact alookup_purge_of_some _ t1 t2 _ (alookup_aset_self _ _ _) hw
    rw [api_create_complaint_dup fingerprint ok2 t2 p2 _ h2 (by simp [hl])]
  · intro hw
    have hl : alookup (fingerprint p2)
        (purge_fingerprints t2 (api_create_complaint fingerprint true t1 p1 cache).cache) =
        none := by
      rw [hcache1, hfp]
      apply alookup_purge_none
      intro t ht
      rcases mem_aset _ _ _ _ ht with h | h
      · rw [h]
        exact hw
      · exact absurd h (alookup_none_not_mem _ _ _ hnew)
    rw [api_create_complaint_created fingerprint t2 p2 _ h2 hl]
  · intro p c n hp hc
    exact api_create_complaint_failed fingerprint n p c hp hc

/-- C6 witness: the same payload submitted at times 0 and 100 gives created
then duplicate; at times 0 and 2000 it gives created then created; and a
failed creation at time 0 registers nothing. -/
theorem C6_duplicate_window_witness :
    (api_create_complaint (fun _ => "fp") true 0 {} []).outcome = .created
    ∧ (api_create_complaint (fun _ => "fp") true 100 {}
        (api_create_complaint (fun _ => "fp") true 0 {} []).cache).outcome =
        .duplicateSubmission
    ∧ (api_create_complaint (fun _ => "fp") true 2000 {}
        (api_create_complaint (fun _ => "fp") true 0 {} []).cache).outcome = .created
    ∧ api_create_complaint (fun _ => "fp") false 0 {} [] =
        { outcome := .createFailed, cache := purge_fingerprints 0 [],
          createAttempted := true, persisted := false } := by
  have ha := C6_duplicate_window (fun _ => "fp") true 0 100 {} {} []
    (by decide) (by decide) rfl (by decide) (by decide)
  have hb := C6_duplicate_window (fun _ => "fp") true 0 2000 {} {} []
    (by decide) (by decide) rfl (by decide) (by decide)
  exact ⟨ha.1, ha.2.1 (by decide), hb.2.2.1 (by decide),
    ha.2.2.2 {} [] 0 (by decide) (by decide)⟩

theorem dropWhile_dropWhile_self {α : Type} (p : α → Bool) (l : List α) :
    (l.dropWhile p).dropWhile p = l.dropWhile p := by
  induction l with
  | nil => rfl
  | cons x xs ih =>
    by_cases h : p x = true
    · rw [List.dropWhile_cons_of_pos h]
      exact ih
    · rw [List.dropWhile_cons_of_neg (by simpa using h),
        List.dropWhile_cons_of_neg (by simpa using h)]

theorem alookup_aset_ne {α : Type} (k k' : String) (v : α) (l : List (String × α))
    (h : k' ≠ k) : alookup k' (aset k v l) = alookup k' l := by
  induction l with
  | nil =>
    simp only [aset, alookup]
    rw [if_neg (by simpa using fun hh => h hh.symm)]
  | cons e rest ih =>
    by_cases he : e.1 = k
    · simp only [aset]
      rw [if_pos (by simpa using he)]
      simp only [alookup]
      rw [if_neg (by simpa [he] using fun hh => h hh.symm),
        if_neg (by simpa [he] using fun hh => h hh.symm)]
    · simp only [aset]
      rw [if_neg (by simpa using he)]
      simp only [alookup]
      by_cases hek : e.1 = k'
      · rw [if_pos (by simpa using hek), if_pos (by simpa using hek)]
      · rw [if_neg (by simpa using hek), if_neg (by simpa using hek)]
        exact ih

theorem alookup_aerase_self {α : Type} (k : String) (l : List (String × α)) :
    alookup k (aerase k l) = none := by
  induction l with
  | nil => rfl
  | cons e rest ih =>
    simp only [aerase]
    by_cases he : e.1 = k
    · rw [if_pos (by simpa using he)]
      exact ih
    · rw [if_neg (by simpa using he)]
      simp only [alookup]
      rw [if_neg (by simpa using he)]
      exact ih

theorem alookup_aerase_ne {α : Type} (k k' : String) (l : List (String × α))
    (h : k' ≠ k) : alookup k' (aerase k l) = alookup k' l := by
  induction l with
  | nil => rfl
  | cons e rest ih =>
    simp only [aerase]
    by_cases he : e.1 = k
    · rw [if_pos (by simpa using he)]
      simp only [alookup]
      rw [if_neg (by simpa [he] using fun hh => h hh.symm)]
      exact ih
    · rw [if_neg (by simpa using he)]
      simp only [alookup]
      by_cases hek : e.1 = k'
      · rw [if_pos (by simpa using hek), if_pos (by simpa using hek)]
      · rw [if_neg (by simpa using hek), if_neg (by simpa using hek)]
        exact ih

theorem erase_foldl_none {α : Type} (k : String) :
    ∀ (ks : List String) (m : List (String × α)),
      k ∈ ks ∨ alookup k m = none →
      alookup k (ks.foldl (fun bs kk => aerase kk bs) m) = none
  | [], m, h => by
    rcases h with h | h
    · exact absurd h (List.not_mem_nil k)
    · exact h
  | kk :: ks, m, h => by
    simp only [List.foldl_cons]
    apply erase_foldl_none k ks
    rcases h with h | h
    · rcases List.mem_cons.mp h with he | he
      · subst he
        exact Or.inr (alookup_aerase_self k m)
      · exact Or.inl he
    · by_cases hkk : k = kk
      · subst hkk
        exact Or.inr (alookup_aerase_self k m)
      · exact Or.inr ((alookup_aerase_ne kk k m hkk).trans h)

theorem lock_foldl_preserve (now : Int) (k : String) :
    ∀ (ks : List String) (m : List (String × Int)),
      now + LOGIN_LOCK_DURATION_SECONDS ≤ (alookup k m).getD 0 →
      now + LOGIN_LOCK_DURATION_SECONDS ≤
        (alookup k (ks.foldl
          (fun m lk => aset lk (max ((alookup lk m).getD 0)
            (now + LOGIN_LOCK_DURATION_SECONDS)) m) m)).getD 0
  | [], _, h => h
  | lk :: ks, m, h => by
    simp only [List.foldl_cons]
    apply lock_foldl_preserve now k ks
    by_cases he : lk = k
    · subst he
      rw [alookup_aset_self]
      exact le_max_right _ _
    · rw [alookup_aset_ne lk k _ m (fun hh => he hh.symm)]
      exact h

theorem lock_foldl_mem (now : Int) (k : String) :
    ∀ (ks : List String) (m : List (String × Int)), k ∈ ks →
      now + LOGIN_LOCK_DURATION_SECONDS ≤
        (alookup k (ks.foldl
          (fun m lk => aset lk (max ((alookup lk m).getD 0)
            (now + LOGIN_LOCK_DURATION_SECONDS)) m) m)).getD 0
  | [], _, h => absurd h (List.not_mem_nil k)
  | lk :: ks, m, h => by
    simp only [List.foldl_cons]
    rcases List.mem_cons.mp h with he | he
    · subst he
      apply lock_foldl_preserve now k ks
      rw [alookup_aset_self]
      exact le_max_right _ _
    · exact lock_foldl_mem now k ks _ he

theorem purge_bucket_key_lookup (now : Int) (k : String) (bs : List (String × List Int)) :
    (alookup k (purge_bucket_key now k bs)).getD [] =
      ((alookup k bs).getD []).dropWhile
        (fun t => LOGIN_ATTEMPT_WINDOW_SECONDS < now - t) := by
  simp only [purge_bucket_key]
  rw [alookup_aset_self]
  rfl

theorem count_pass_trigger (now : Int) (allKeys : List String) :
    ∀ (rest : List String) (st : RateLimitState),
      (∃ k ∈ rest, LOGIN_ATTEMPT_MAX_ATTEMPTS ≤ purged_len now st.buckets k) →
      ∃ st', rate_limit_count_pass now allKeys rest st =
          ((false, some LOGIN_LOCK_DURATION_SECONDS), st') ∧
        ∀ k ∈ allKeys,
          now + LOGIN_LOCK_DURATION_SECONDS ≤ (alookup k st'.lockedUntil).getD 0
  | [], _, h => by simp at h
  | k :: rest, st, h => by
    simp only [rate_limit_count_pass]
    by_cases hc : LOGIN_ATTEMPT_MAX_ATTEMPTS ≤
        ((alookup k ({ st with buckets := purge_bucket_key now k st.buckets } :
          RateLimitState).buckets).getD []).length
    · rw [if_pos hc]
      exact ⟨_, rfl, fun k' hk' => lock_foldl_mem now k' allKeys _ hk'⟩
    · rw [if_neg hc]
      apply count_pass_trigger now allKeys rest
      rcases h with ⟨k0, hk0mem, hk0len⟩
      rcases List.mem_cons.mp hk0mem with he | he
      · subst he
        exact absurd (by simpa [purged_len, purge_bucket_key_lookup] using hk0len) hc
      · refine ⟨k0, he, ?_⟩
        by_cases hkk : k0 = k
        · subst hkk
          simpa [purged_len, purge_bucket_key_lookup, dropWhile_dropWhile_self]
            using hk0len
        · simpa [purged_len, purge_bucket_key, alookup_aset_ne k k0 _ _ hkk]
            using hk0len

theorem count_pass_allowed (now : Int) (allKeys : List String) :
    ∀ (rest : List String) (st : RateLimitState),
      (∀ k ∈ rest, purged_len now st.buckets k < LOGIN_ATTEMPT_MAX_ATTEMPTS) →
      ∃ st', rate_limit_count_pass now allKeys rest st = ((true, none), st')
  | [], st, _ => ⟨st, rfl⟩
  | k :: rest, st, h => by
    simp only [rate_limit_count_pass]
    rw [if_neg (by
      simpa [purged_len, purge_bucket_key_lookup] using
        not_le.mpr (h k (List.mem_cons_self _ _)))]
    apply count_pass_allowed now allKeys rest
    intro k' hk'
    by_cases hkk : k' = k
    · subst hkk
      simpa [purged_len, purge_bucket_key_lookup, dropWhile_dropWhile_self]
        using h k' (List.mem_cons_self _ _)
    · simpa [purged_len, purge_bucket_key, alookup_aset_ne k k' _ _ hkk]
        using h k' (List.mem_cons_of_mem _ hk')

/-- C5: (i) while any involved key is locked the check rejects with a positive
retry-after and changes nothing; (ii) when no key is locked and some key
already holds the maximum of recorded attempts inside the window — five
prior checks — the next check rejects with the 15-minute retry-after and
stamps a lockout of at least now plus 15 minutes on every involved key
(both the ip key and the identifier key); (iii) with no lockout and all
buckets below the maximum the check allows; (iv) whenever the check
rejects, api_login answers rate-limited regardless of the credential or
password outcome; (v) api_login resets the involved keys' counters and
lockouts exactly on 2FA issuance or full success, every other outcome
leaves the rate-limit state as the check left it; (vi) the reset removes
the buckets and lockouts of every involved key. -/
theorem C5_login_rate_limit (now : Int) (keys : List String) (st : RateLimitState) :
    ((∃ k ∈ keys, locked_active now st k = true) →
      ∃ r, check_login_rate_limit now keys st = ((false, some r), st) ∧ 1 ≤ r)
    ∧ ((∀ k ∈ keys, locked_active now st k = false) →
       (∃ k ∈ keys, LOGIN_ATTEMPT_MAX_ATTEMPTS ≤ purged_len now st.buckets k) →
       ∃ st', check_login_rate_limit now keys st =
           ((false, some LOGIN_LOCK_DURATION_SECONDS), st') ∧
         ∀ k ∈ keys,
           now + LOGIN_LOCK_DURATION_SECONDS ≤ (alookup k st'.lockedUntil).getD 0)
    ∧ ((∀ k ∈ keys, locked_active now st k = false) →
       (∀ k ∈ keys, purged_len now st.buckets k < LOGIN_ATTEMPT_MAX_ATTEMPTS) →
       (check_login_rate_limit now keys st).1 = (true, none))
    ∧ (∀ env, (check_login_rate_limit now keys st).1.1 = false →
       ∃ r, api_login env now keys true true st =
         (.rateLimited r, (check_login_rate_limit now keys st).2))
    ∧ (∀ env hid hpw,
        ((api_login env now keys hid hpw st).1 = .twoFactorIssued ∨
         (api_login env now keys hid hpw st).1 = .success →
          (api_login env now keys hid hpw st).2 =
            reset_login_rate_limit keys (check_login_rate_limit now keys st).2)
        ∧ ((api_login env now keys hid hpw st).1 ≠ .twoFactorIssued ∧
           (api_login env now keys hid hpw st).1 ≠ .success →
            (api_login env now keys hid hpw st).2 = st ∨
            (api_login env now keys hid hpw st).2 =
              (check_login_rate_limit now keys st).2))
    ∧ (∀ stX k, k ∈ keys →
        alookup k (reset_login_rate_limit keys stX).buckets = none ∧
        alookup k (reset_login_rate_limit keys stX).lockedUntil = none) := by
  refine ⟨?_, ?_, ?_, ?_, ?_, ?_⟩
  · intro h
    have hs : (keys.find? (locked_active now st)).isSome :=
      List.find?_isSome.mpr (by simpa using h)
    obtain ⟨k0, hk0⟩ := Option.isSome_iff_exists.mp hs
    refine ⟨max 1 (((alookup k0 st.lockedUntil).getD 0) - now), ?_, le_max_left _ _⟩
    simp only [check_login_rate_limit, hk0]
  · intro hnl hfull
    have hn : keys.find? (locked_active now st) = none :=
      List.find?_eq_none.mpr (by intro x hx; simp [hnl x hx])
    obtain ⟨st', hpass, hlock⟩ := count_pass_trigger now keys keys st hfull
    refine ⟨st', ?_, hlock⟩
    simp only [check_login_rate_limit, hn, hpass]
  · intro hnl hlow
    have hn : keys.find? (locked_active now st) = none :=
      List.find?_eq_none.mpr (by intro x hx; simp [hnl x hx])
    obtain ⟨st', hpass⟩ := count_pass_allowed now keys keys st hlow
    simp only [check_login_rate_limit, hn, hpass]
  · intro env hfalse
    refine ⟨(check_login_rate_limit now keys st).1.2, ?_⟩
    rcases hc : check_login_rate_limit now keys st with ⟨⟨allowed, retry⟩, st1⟩
    rw [hc] at hfalse
    simp only at hfalse
    subst hfalse
    simp [api_login, hc]
  · intro env hid hpw
    rcases hc : check_login_rate_limit now keys st with ⟨⟨allowed, retry⟩, st1⟩
    by_cases hmiss : (!hid || !hpw) = true
    · constructor
      · intro hout
        exfalso
        simp [api_login, hmiss] at hout
      · intro _
        left
        simp [api_login, hmiss]
    · cases allowed
      · constructor
        · intro hout
          exfalso
          simp [api_login, hmiss, hc] at hout
        · intro _
          right
          simp [api_login, hmiss, hc]
      · constructor
        · intro hout
          by_cases huf : env.userFound = true <;>
            by_cases hp2 : env.passwordOk = true <;>
              by_cases hrt : env.requiresTwoFactor = true <;>
                by_cases hch : env.challengeOk = true <;>
                  by_cases hem : env.emailOk = true <;>
                    simp_all [api_login, hmiss, hc]
        · intro hout
          by_cases huf : env.userFound = true <;>
            by_cases hp2 : env.passwordOk = true <;>
              by_cases hrt : env.requiresTwoFactor = true <;>
                by_cases hch : env.challengeOk = true <;>
                  by_cases hem : env.emailOk = true <;>
                    simp_all [api_login, hmiss, hc]
  · intro stX k hk
    exact ⟨erase_foldl_none k keys stX.buckets (Or.inl hk),
      erase_foldl_none k keys stX.lockedUntil (Or.inl hk)⟩

/-- C5 witness: with five attempts recorded for the identifier key inside the
window, the sixth check at time 100 rejects with the 900-second retry and
locks both involved keys until at least time 1000, and api_login answers
rate-limited even though the supplied password is correct. -/
theorem C5_login_rate_limit_witness :
    (∃ st', check_login_rate_limit 100 rlKeys rlState =
        ((false, some LOGIN_LOCK_DURATION_SECONDS), st') ∧
      ∀ k ∈ rlKeys,
        100 + LOGIN_LOCK_DURATION_SECONDS ≤ (alookup k st'.lockedUntil).getD 0)
    ∧ ∃ r, api_login ⟨true, true, false, true, true⟩ 100 rlKeys true true rlState =
        (.rateLimited r, (check_login_rate_limit 100 rlKeys rlState).2) :=
  ⟨(C5_login_rate_limit 100 rlKeys rlState).2.1 (by decide)
      ⟨"id:alice", by decide, by decide⟩,
   (C5_login_rate_limit 100 rlKeys rlState).2.2.2.1
      ⟨true, true, false, true, true⟩ (by decide)⟩

end OBS
